import Mathlib

/-!
Verification of the rule-based prompt pipeline of the VoicePrompt
repository: the conversation state machine (`src/lib/conversation.ts`),
the rule-based structuring engine (`src/lib/structurer.ts`), the
multi-target formatters (`src/lib/formatters.ts`), and the two serverless
boundaries `/api/converse` and `/api/format`.

The TypeScript code is embedded shallowly: strings are Lean `String`s
(the inputs in the repository are treated character-wise; for the ASCII
texts the code manipulates this agrees with JavaScript's UTF-16 code-unit
view), JavaScript array/string helpers (`split` on a regex class,
`trim`, `includes`, `toLowerCase`, `join`) are modelled one-for-one as
executable functions below, and each exported TypeScript function becomes
one Lean definition with the same name.  Message ids and timestamps
(`generateId`, `Date.now`) are presentation metadata read by no decision
logic and are not part of the state model.
-/

namespace VoicePrompt

/-! ## JavaScript string primitives -/

/-- The whitespace class `\s` of the regexes the code uses, restricted to
the ASCII whitespace characters that can occur in the texts involved. -/
def isJsSpace (c : Char) : Bool :=
  c == ' ' || c == '\t' || c == '\n' || c == '\r'

/-- The sentence-boundary class `[.!?]` used by `split(/[.!?]+/)`. -/
def isSentBoundary (c : Char) : Bool :=
  c == '.' || c == '!' || c == '?'

/-- Core of JavaScript `String.prototype.split` on a one-character-class
regex with `+`: a maximal run of separator characters is a single
delimiter; leading and trailing delimiters produce empty fields, exactly
as in JavaScript (`".a.".split(/[.!?]+/) = ["", "a", ""]`).  The boolean
argument records whether the previous character was a separator. -/
def splitRunsAux (sep : Char → Bool) : List Char → List Char → Bool → List (List Char)
  | [], cur, _ => [cur.reverse]
  | c :: rest, cur, inSep =>
    if sep c then
      if inSep then splitRunsAux sep rest [] true
      else cur.reverse :: splitRunsAux sep rest [] true
    else splitRunsAux sep rest (c :: cur) false

/-- JavaScript `s.split(re)` for a regex that is one character class with `+`. -/
def jsSplit (sep : Char → Bool) (s : String) : List String :=
  (splitRunsAux sep s.data [] false).map (fun l => ⟨l⟩)

/-- JavaScript `s.trim()`. -/
def jsTrim (s : String) : String :=
  ⟨((s.data.dropWhile isJsSpace).reverse.dropWhile isJsSpace).reverse⟩

/-- JavaScript `s.toLowerCase()` (ASCII). -/
def toLowerStr (s : String) : String :=
  ⟨s.data.map Char.toLower⟩

/-- Substring test on character lists. -/
def containsSub (hay needle : List Char) : Bool :=
  hay.tails.any (fun t => needle.isPrefixOf t)

/-- JavaScript `hay.includes(needle)`. -/
def containsStr (hay needle : String) : Bool :=
  containsSub hay.data needle.data

/-- JavaScript `s.split(/\s+/)`. -/
def jsWords (s : String) : List String :=
  jsSplit isJsSpace s

/-- Core of JavaScript `s.split(" ")`: every single space is a delimiter,
so consecutive spaces yield empty fields. -/
def splitSpaceAux : List Char → List Char → List (List Char)
  | [], cur => [cur.reverse]
  | c :: rest, cur =>
    if c == ' ' then cur.reverse :: splitSpaceAux rest []
    else splitSpaceAux rest (c :: cur)

/-- JavaScript `s.split(" ")`. -/
def jsSplitSingleSpace (s : String) : List String :=
  (splitSpaceAux s.data []).map (fun l => ⟨l⟩)

/-! ## The word-boundary regex `/\b(no |don'?t|without|avoid|never)\b/i`
used by `extractConstraints` is modelled exactly: `\w` is `[A-Za-z0-9_]`,
`\b` holds at a position with a word character on exactly one side, and
the alternation is matched case-insensitively at every position. -/

/-- JavaScript `\w`. -/
def isWordChar (c : Char) : Bool :=
  c.isAlpha || c.isDigit || c == '_'

/-- Whether position `j` of `s` holds a word character (out of range: no). -/
def wordAt (s : List Char) (j : Nat) : Bool :=
  isWordChar (s.getD j ' ')

/-- JavaScript `\b` at gap position `p` (between `p-1` and `p`), `0 ≤ p ≤ |s|`. -/
def wordBoundaryAt (s : List Char) (p : Nat) : Bool :=
  (if p == 0 then false else wordAt s (p - 1)) != wordAt s p

/-- The literal alternatives of `(no |don'?t|without|avoid|never)`. -/
def negAlts : List String :=
  ["no ", "dont", "don't", "without", "avoid", "never"]

/-- Case-insensitive literal match of `alt` at offset `i` of `s`. -/
def matchCIAt (s : List Char) (i : Nat) (alt : List Char) : Bool :=
  alt.isPrefixOf ((s.drop i).map Char.toLower)

/-- `/\b(no |don'?t|without|avoid|never)\b/i.test s`. -/
def negRegexTest (s : String) : Bool :=
  (List.range (s.data.length + 1)).any fun i =>
    negAlts.any fun alt =>
      matchCIAt s.data i alt.data && wordBoundaryAt s.data i
        && wordBoundaryAt s.data (i + alt.data.length)

end VoicePrompt

namespace Structurer

open VoicePrompt

/-- `StructuredPrompt` of `src/lib/structurer.ts`. -/
structure StructuredPrompt where
  title : String
  intent : String
  context : String
  requirements : List String
  constraints : List String
  outputFormat : String
  fullPrompt : String
  qualityScore : Nat
deriving DecidableEq, Repr

/-- `INTENT_PATTERNS` of `src/lib/structurer.ts`, in object insertion order. -/
def INTENT_PATTERNS : List (String × List String) :=
  [("Code Generation",
    ["code", "program", "function", "api", "app", "application", "build", "create",
     "develop", "implement", "write code", "script", "website", "web", "database",
     "backend", "frontend", "full stack", "fullstack", "rest api", "endpoint",
     "component", "class", "module", "library", "package", "crud", "authentication",
     "login", "signup", "deploy", "server", "client", "mobile", "react", "next",
     "python", "javascript", "typescript", "java", "node", "express", "django",
     "flask", "html", "css", "sql", "mongodb", "firebase", "docker", "kubernetes"]),
   ("Writing & Content",
    ["write", "essay", "article", "blog", "post", "email", "letter", "report",
     "documentation", "readme", "story", "poem", "speech", "presentation",
     "proposal", "resume", "cover letter", "content", "copy", "social media",
     "tweet", "caption", "headline", "description", "summary", "translate"]),
   ("Analysis & Research",
    ["analyze", "analysis", "research", "compare", "evaluate", "review", "assess",
     "investigate", "study", "examine", "explain", "understand", "learn", "teach",
     "data", "statistics", "trend", "insight", "report", "survey"]),
   ("Problem Solving",
    ["fix", "debug", "error", "issue", "problem", "solve", "help", "why",
     "how to", "troubleshoot", "broken", "not working", "crash", "bug",
     "optimize", "improve", "refactor", "performance"]),
   ("Creative",
    ["design", "ui", "ux", "logo", "brand", "color", "layout", "mockup",
     "wireframe", "prototype", "animation", "illustration", "image", "video",
     "music", "game", "idea", "brainstorm", "creative", "innovate"]),
   ("Data & Automation",
    ["automate", "automation", "workflow", "pipeline", "etl", "scrape", "crawl",
     "parse", "extract", "transform", "csv", "json", "xml", "excel", "spreadsheet",
     "dashboard", "chart", "graph", "visualization", "bot", "cron"])]

/-- Keyword score of one category: `+ keyword.split(" ").length` per
keyword contained in the lowered text. -/
def scoreFor (lower : String) (keywords : List String) : Nat :=
  keywords.foldl
    (fun acc kw =>
      if containsStr lower kw then acc + (jsSplitSingleSpace kw).length else acc) 0

/-- `detectIntent` of `src/lib/structurer.ts`: best keyword-weight score,
ties and the all-zero case keep the earlier value (initially `"General"`,
replacement only on a strictly larger score). -/
def detectIntent (text : String) : String :=
  let lower := toLowerStr text
  (INTENT_PATTERNS.foldl
    (fun best p =>
      let score := scoreFor lower p.2
      if score > best.2 then (p.1, score) else best)
    ("General", 0)).1

/-- The requirement-signal test of `extractRequirements` (on the lowered,
trimmed sentence). -/
def hasReqSignal (lower : String) : Bool :=
  containsStr lower "need" || containsStr lower "want" || containsStr lower "should" ||
  containsStr lower "must" || containsStr lower "include" || containsStr lower "add" ||
  containsStr lower "with" || containsStr lower "plus" || containsStr lower "also" ||
  containsStr lower "and" || containsStr lower "feature"

/-- `extractRequirements` of `src/lib/structurer.ts`. -/
def extractRequirements (text : String) : List String :=
  let sentences := (jsSplit isSentBoundary text).filter (fun s => (jsTrim s).length > 5)
  let requirements :=
    (sentences.filter (fun sentence => hasReqSignal (jsTrim (toLowerStr sentence)))).map jsTrim
  if requirements.length = 0 then
    (sentences.map jsTrim).filter (fun s => s.length > 5)
  else requirements

/-- `extractConstraints` of `src/lib/structurer.ts`: negation-bearing
sentences verbatim (trimmed), then the canned whole-text constraints. -/
def extractConstraints (text : String) : List String :=
  let lower := toLowerStr text
  (if containsStr lower "no " || containsStr lower "don't" || containsStr lower "without" then
    ((jsSplit isSentBoundary text).filter negRegexTest).map jsTrim
  else [])
  ++ (if containsStr lower "free" then ["Must use only free/open-source tools"] else [])
  ++ (if containsStr lower "simple" then ["Keep the solution simple and straightforward"] else [])
  ++ (if containsStr lower "fast" || containsStr lower "quick" then
        ["Optimize for speed and performance"] else [])
  ++ (if containsStr lower "secure" || containsStr lower "security" then
        ["Follow security best practices"] else [])

/-- `determineOutputFormat` of `src/lib/structurer.ts`. -/
def determineOutputFormat (intent : String) (text : String) : String :=
  let lower := toLowerStr text
  if intent = "Code Generation" then
    if containsStr lower "explain" then "Code with detailed comments and explanation"
    else "Complete, production-ready code with comments"
  else if intent = "Writing & Content" then "Well-structured written content"
  else if intent = "Analysis & Research" then
    "Detailed analysis with key findings and recommendations"
  else if intent = "Problem Solving" then "Step-by-step solution with explanation"
  else if intent = "Creative" then "Creative output with reasoning behind design choices"
  else if intent = "Data & Automation" then
    "Implementation with sample data and usage instructions"
  else "Clear, comprehensive response"

/-- `calculateQualityScore` of `src/lib/structurer.ts`. -/
def calculateQualityScore (prompt : StructuredPrompt) : Nat :=
  let score := 40
  let score := if prompt.fullPrompt.length > 200 then score + 10 else score
  let score := if prompt.fullPrompt.length > 400 then score + 10 else score
  let score := if prompt.fullPrompt.length > 600 then score + 5 else score
  let score := if prompt.requirements.length > 0 then score + 10 else score
  let score := if prompt.requirements.length > 2 then score + 5 else score
  let score := if prompt.requirements.length > 4 then score + 5 else score
  let score := if prompt.constraints.length > 0 then score + 5 else score
  let score := if prompt.intent ≠ "General" then score + 10 else score
  min score 100

/-- The record `structurePrompt` builds before scoring it (the source
constructs it with `qualityScore: 0` and then overwrites that field). -/
def structurePromptBase (rawText : String) (conversationHistory : Option String) :
    StructuredPrompt :=
  let intent := detectIntent rawText
  let requirements := extractRequirements rawText
  let constraints := extractConstraints rawText
  let outputFormat := determineOutputFormat intent rawText
  let words := String.intercalate " " ((jsWords rawText).take 8)
  let title := if words.length > 50 then (⟨words.data.take 47⟩ : String) ++ "..." else words
  let context :=
    if (conversationHistory.getD "") ≠ "" then
      "Based on our conversation, the user wants: " ++ rawText
    else rawText
  let sections : List String :=
    ["## Task\n" ++ context]
    ++ (if requirements.length > 0 then
          ["## Requirements\n" ++
            String.intercalate "\n" (requirements.map (fun r => "- " ++ r))] else [])
    ++ (if constraints.length > 0 then
          ["## Constraints\n" ++
            String.intercalate "\n" (constraints.map (fun c => "- " ++ c))] else [])
    ++ ["## Expected Output\n" ++ outputFormat]
    ++ ["## Guidelines\n- Be thorough and detailed in your response\n- Follow best practices and conventions\n- Provide explanations for important decisions\n- If anything is unclear, state your assumptions"]
  { title := title, intent := intent, context := context,
    requirements := requirements, constraints := constraints,
    outputFormat := outputFormat,
    fullPrompt := String.intercalate "\n\n" sections, qualityScore := 0 }

/-- `structurePrompt` of `src/lib/structurer.ts`. -/
def structurePrompt (rawText : String) (conversationHistory : Option String) :
    StructuredPrompt :=
  let result := structurePromptBase rawText conversationHistory
  { result with qualityScore := calculateQualityScore result }

end Structurer

namespace Formatters

open VoicePrompt Structurer

/-- `FormattedPrompt` of `src/lib/formatters.ts`. -/
structure FormattedPrompt where
  llmName : String
  llmIcon : String
  formattedPrompt : String
  description : String
  color : String
deriving DecidableEq, Repr

/-- `formatForClaude` of `src/lib/formatters.ts`. -/
def formatForClaude (prompt : StructuredPrompt) : FormattedPrompt :=
  let lines : List String :=
    ["<task>", prompt.context, "</task>", ""]
    ++ (if prompt.requirements.length > 0 then
          ["<requirements>"] ++ prompt.requirements.map (fun r => "- " ++ r)
            ++ ["</requirements>", ""] else [])
    ++ (if prompt.constraints.length > 0 then
          ["<constraints>"] ++ prompt.constraints.map (fun c => "- " ++ c)
            ++ ["</constraints>", ""] else [])
    ++ ["<output_format>", prompt.outputFormat, "</output_format>", ""]
    ++ ["<instructions>",
        "Please think through this step-by-step before providing your response.",
        "Be thorough, follow best practices, and explain your reasoning.",
        "If anything is ambiguous, state your assumptions clearly.",
        "</instructions>"]
  { llmName := "Claude", llmIcon := "🟠",
    formattedPrompt := String.intercalate "\n" lines,
    description := "Optimized with XML tags and structured thinking",
    color := "#d97706" }

/-- `formatForGemini` of `src/lib/formatters.ts` (requirements are numbered
from 1, as `forEach`'s index plus one). -/
def formatForGemini (prompt : StructuredPrompt) : FormattedPrompt :=
  let lines : List String :=
    ["**Task:** " ++ prompt.context, ""]
    ++ (if prompt.requirements.length > 0 then
          ["**Requirements:**"]
            ++ (prompt.requirements.enum.map
                  (fun ri => toString (ri.1 + 1) ++ ". " ++ ri.2))
            ++ [""] else [])
    ++ (if prompt.constraints.length > 0 then
          ["**Constraints:**"] ++ prompt.constraints.map (fun c => "- " ++ c)
            ++ [""] else [])
    ++ ["**Expected Output:** " ++ prompt.outputFormat, "",
        "**Important:** Provide a comprehensive, well-structured response. Use markdown formatting for clarity. Include code examples if relevant."]
  { llmName := "Gemini", llmIcon := "🔵",
    formattedPrompt := String.intercalate "\n" lines,
    description := "Structured with markdown and grounding hints",
    color := "#3b82f6" }

/-- `formatForChatGPT` of `src/lib/formatters.ts`. -/
def formatForChatGPT (prompt : StructuredPrompt) : FormattedPrompt :=
  let lines : List String :=
    ["[System Message]",
     "You are an expert assistant specializing in " ++ toLowerStr prompt.intent ++ ". Provide detailed, accurate, and well-structured responses. Follow best practices and industry standards.",
     "", "[User Message]", prompt.context, ""]
    ++ (if prompt.requirements.length > 0 then
          ["Requirements:"] ++ prompt.requirements.map (fun r => "• " ++ r) ++ [""] else [])
    ++ (if prompt.constraints.length > 0 then
          ["Constraints:"] ++ prompt.constraints.map (fun c => "• " ++ c) ++ [""] else [])
    ++ ["Please provide: " ++ prompt.outputFormat]
  { llmName := "ChatGPT", llmIcon := "🟢",
    formattedPrompt := String.intercalate "\n" lines,
    description := "System/User message split for GPT models",
    color := "#10b981" }

/-- `formatForDeepSeek` of `src/lib/formatters.ts`. -/
def formatForDeepSeek (prompt : StructuredPrompt) : FormattedPrompt :=
  let lines : List String :=
    ["## Problem Statement", prompt.context, ""]
    ++ (if prompt.requirements.length > 0 then
          ["## Specifications"] ++ prompt.requirements.map (fun r => "- " ++ r) ++ [""] else [])
    ++ (if prompt.constraints.length > 0 then
          ["## Constraints"] ++ prompt.constraints.map (fun c => "- " ++ c) ++ [""] else [])
    ++ ["## Instructions",
        "1. First, analyze the problem and break it down into sub-problems",
        "2. Think through each sub-problem step by step",
        "3. Provide a complete, working solution",
        "4. Explain your reasoning and any trade-offs made",
        "", "## Expected Output", prompt.outputFormat]
  { llmName := "DeepSeek", llmIcon := "🔮",
    formattedPrompt := String.intercalate "\n" lines,
    description := "Chain-of-thought with step-by-step reasoning",
    color := "#8b5cf6" }

/-- `formatForGrok` of `src/lib/formatters.ts`. -/
def formatForGrok (prompt : StructuredPrompt) : FormattedPrompt :=
  let lines : List String :=
    [prompt.context, ""]
    ++ (if prompt.requirements.length > 0 then
          ["Key requirements: " ++ String.intercalate "; " prompt.requirements, ""] else [])
    ++ (if prompt.constraints.length > 0 then
          ["Constraints: " ++ String.intercalate "; " prompt.constraints, ""] else [])
    ++ ["Be direct, thorough, and practical. " ++ prompt.outputFormat ++ "."]
  { llmName := "Grok", llmIcon := "⚡",
    formattedPrompt := String.intercalate "\n" lines,
    description := "Concise, direct, and to-the-point",
    color := "#ef4444" }

/-- `formatForAllLLMs` of `src/lib/formatters.ts`. -/
def formatForAllLLMs (prompt : StructuredPrompt) : List FormattedPrompt :=
  [formatForClaude prompt,
   formatForGemini prompt,
   formatForChatGPT prompt,
   formatForDeepSeek prompt,
   formatForGrok prompt]

end Formatters

namespace Conversation

open VoicePrompt

/-- Message role of `ChatMessage` in `src/lib/conversation.ts`. -/
inductive Role where
  | user
  | assistant
deriving DecidableEq, Repr

/-- `ChatMessage`, restricted to the fields the conversation logic reads
(`id`, `timestamp` and `isVoice` are presentation metadata produced by
`generateId`/`Date.now` and inspected by no decision logic). -/
structure Msg where
  role : Role
  content : String
deriving DecidableEq, Repr

/-- `CLARIFYING_TEMPLATES` of `src/lib/conversation.ts`, and the lookup
`CLARIFYING_TEMPLATES[intent] || CLARIFYING_TEMPLATES["General"]`: an
unknown intent (and `"General"` itself) yields the `General` list. -/
def clarifyingTemplatesFor (intent : String) : List String :=
  if intent = "Code Generation" then
    ["What programming language or framework would you like me to use?",
     "Should I include error handling and edge cases?",
     "Do you need tests included with the code?",
     "Any specific architecture pattern you'd like (MVC, microservices, etc.)?"]
  else if intent = "Writing & Content" then
    ["What tone should the writing be — formal, casual, or conversational?",
     "Who is the target audience?",
     "How long should the content be?",
     "Should I include any specific sections or structure?"]
  else if intent = "Analysis & Research" then
    ["What specific aspects should I focus on?",
     "Do you need data sources or citations?",
     "Should I compare multiple options or focus on one?",
     "What level of detail do you need — overview or deep dive?"]
  else if intent = "Problem Solving" then
    ["Can you describe what's happening vs what you expected?",
     "What have you already tried?",
     "Are there any error messages?",
     "What environment or platform are you using?"]
  else
    ["Could you tell me a bit more about what you're looking for?",
     "What's the main goal you want to achieve?",
     "Are there any specific requirements or constraints?"]

/-- The `totalWords` reduction of `isIntentComplete`: the summed
`split(/\s+/).length` over the user messages. -/
def userWordCount (messages : List Msg) : Nat :=
  (messages.filter (fun m => m.role == Role.user)).foldl
    (fun acc m => acc + (jsWords m.content).length) 0

/-- `isIntentComplete` of `src/lib/conversation.ts`. -/
def isIntentComplete (messages : List Msg) : Bool :=
  if userWordCount messages > 15 then true
  else if messages.length ≥ 4 then true
  else false

/-- The assistant-message contents of a message list (the `askedQuestions`
computation of `pickClarifyingQuestion`). -/
def askedQuestions (messages : List Msg) : List String :=
  (messages.filter (fun m => m.role == Role.assistant)).map (fun m => m.content)

/-- `pickClarifyingQuestion` of `src/lib/conversation.ts`. -/
def pickClarifyingQuestion (intent : String) (existingMessages : List Msg) : String :=
  let questions := clarifyingTemplatesFor intent
  let asked := askedQuestions existingMessages
  let unasked := questions.filter (fun q => !(asked.contains q))
  match unasked with
  | q :: _ => q
  | [] => "Got it! Let me structure that into a prompt for you."

/-- `ConversationState` of `src/lib/conversation.ts`. -/
structure ConversationState where
  messages : List Msg
  rawTranscripts : List String
  combinedIntent : String
  isComplete : Bool
  clarifyingQuestion : Option String
deriving DecidableEq, Repr

/-- The state the `ConversationManager` constructor (and `reset`) installs. -/
def initialState : ConversationState :=
  { messages := [], rawTranscripts := [], combinedIntent := "",
    isComplete := false, clarifyingQuestion := none }

/-- `ConversationManager.addUserMessage`. -/
def addUserMessage (s : ConversationState) (content : String) : ConversationState :=
  { s with messages := s.messages ++ [{ role := Role.user, content := content }],
           rawTranscripts := s.rawTranscripts ++ [content] }

/-- `ConversationManager.addAssistantMessage`. -/
def addAssistantMessage (s : ConversationState) (content : String) : ConversationState :=
  { s with messages := s.messages ++ [{ role := Role.assistant, content := content }] }

/-- The reply `processUserInput` gives once the intent is complete. -/
def completionLine : String :=
  "Perfect! I have enough information. Let me structure that into an optimized prompt for you."

/-- `ConversationManager.processUserInput`: returns the
`{response, shouldStructure}` record and the updated state. -/
def processUserInput (s : ConversationState) (transcript detectedIntent : String) :
    (String × Bool) × ConversationState :=
  let s1 := addUserMessage s transcript
  let s2 := { s1 with combinedIntent := detectedIntent }
  let complete := isIntentComplete s2.messages
  let s3 := { s2 with isComplete := complete }
  if complete then
    ((completionLine, true), addAssistantMessage s3 completionLine)
  else
    let question := pickClarifyingQuestion detectedIntent s3.messages
    let s4 := addAssistantMessage s3 question
    ((question, false), { s4 with clarifyingQuestion := some question })

/-- States reachable within one session through the `ConversationManager`
mutators (no `reset`). -/
inductive Reachable : ConversationState → Prop where
  | init : Reachable initialState
  | user (s : ConversationState) (c : String) :
      Reachable s → Reachable (addUserMessage s c)
  | assistant (s : ConversationState) (c : String) :
      Reachable s → Reachable (addAssistantMessage s c)
  | process (s : ConversationState) (t i : String) :
      Reachable s → Reachable (processUserInput s t i).2

end Conversation

namespace ConverseRoute

open VoicePrompt Conversation

/-- `CLARIFYING_TEMPLATES` of `src/app/api/converse/route.ts` (three
questions per category), with the `|| CLARIFYING_TEMPLATES["General"]`
fallback folded into the lookup. -/
def clarifyingTemplatesFor (intent : String) : List String :=
  if intent = "Code Generation" then
    ["Got it! What programming language or framework would you like me to use?",
     "Should I include error handling, tests, and edge cases?",
     "Any specific architecture pattern you'd like (MVC, microservices, etc.)?"]
  else if intent = "Writing & Content" then
    ["Sure! What tone should the writing be — formal, casual, or conversational?",
     "Who is the target audience for this content?",
     "How long should the content be?"]
  else if intent = "Analysis & Research" then
    ["Interesting! What specific aspects should I focus on?",
     "Should I compare multiple options or focus on one?",
     "What level of detail do you need — overview or deep dive?"]
  else if intent = "Problem Solving" then
    ["I see! Can you describe what's happening vs what you expected?",
     "What have you already tried so far?",
     "Are there any error messages or logs?"]
  else
    ["Could you tell me a bit more about what you're looking for?",
     "What's the main goal you want to achieve?",
     "Are there any specific requirements or constraints I should know about?"]

/-- `INTENT_PATTERNS` of `src/app/api/converse/route.ts`. -/
def INTENT_PATTERNS : List (String × List String) :=
  [("Code Generation",
    ["code", "program", "api", "app", "build", "create", "develop", "website",
     "database", "function", "react", "python", "javascript"]),
   ("Writing & Content",
    ["write", "essay", "article", "blog", "email", "report", "documentation",
     "content", "translate"]),
   ("Analysis & Research",
    ["analyze", "research", "compare", "evaluate", "explain", "data", "statistics"]),
   ("Problem Solving",
    ["fix", "debug", "error", "problem", "solve", "help", "troubleshoot",
     "broken", "bug"]),
   ("Creative",
    ["design", "ui", "ux", "logo", "brand", "game", "idea", "brainstorm"])]

/-- `detectIntent` of `src/app/api/converse/route.ts`: one point per
contained keyword, strict improvement replaces, default `"General"`. -/
def detectIntent (text : String) : String :=
  let lower := toLowerStr text
  (INTENT_PATTERNS.foldl
    (fun best p =>
      let score := (p.2.foldl (fun acc kw => if containsStr lower kw then acc + 1 else acc) 0)
      if score > best.2 then (p.1, score) else best)
    ("General", 0)).1

/-- The `data` payload of a successful `/api/converse` response. -/
structure ConverseData where
  response : String
  shouldStructure : Bool
  intent : String
  isComplete : Bool
deriving DecidableEq, Repr

/-- The generic closing line used when every template was already asked. -/
def closingLine : String := "Got it! Let me structure that into a prompt for you."

/-- The total word count of `/api/converse`:
`[...userMessages.map(content), transcript].join(" ").split(/\s+/).length`. -/
def totalWords (history : List Msg) (transcript : String) : Nat :=
  (jsWords (String.intercalate " "
    (((history.filter (fun m => m.role == Role.user)).map (fun m => m.content))
      ++ [transcript]))).length

/-- `POST` of `src/app/api/converse/route.ts` (its pure request/response
behaviour; the JSON transport is the boundary).  A missing/blank transcript
is the 400 validation error. -/
def conversePOST (transcript : String) (history : List Msg) : Except String ConverseData :=
  if (jsTrim transcript).length = 0 then Except.error "Transcript is required"
  else
    let intent := detectIntent transcript
    let complete := totalWords history transcript > 15 || history.length ≥ 4
    if complete then
      Except.ok { response := completionLine, shouldStructure := true,
                  intent := intent, isComplete := true }
    else
      let questions := clarifyingTemplatesFor intent
      let asked := askedQuestions history
      let unasked := questions.filter (fun q => !(asked.contains q))
      let question := match unasked with
        | q :: _ => q
        | [] => closingLine
      Except.ok { response := question, shouldStructure := unasked.isEmpty,
                  intent := intent, isComplete := false }

end ConverseRoute

namespace FormatRoute

open VoicePrompt

/-- `FormattedPrompt` of `src/app/api/format/route.ts`. -/
structure FormattedPrompt where
  llmName : String
  description : String
  formattedPrompt : String
deriving DecidableEq, Repr

/-- `PromptData` of `src/app/api/format/route.ts`; the optional fields
carry the destructuring defaults of `POST` when absent. -/
structure PromptData where
  context : String
  requirements : Option (List String)
  constraints : Option (List String)
  outputFormat : Option String
  intent : Option String
deriving DecidableEq, Repr

/-- `formatForClaude` of `src/app/api/format/route.ts`. -/
def formatForClaude (ctx : String) (reqs cons : List String) (out : String) :
    FormattedPrompt :=
  let p := "<task>\n" ++ ctx ++ "\n</task>\n"
  let p := if reqs.length ≠ 0 then
      p ++ "\n<requirements>\n" ++
        String.intercalate "\n" (reqs.map (fun r => "- " ++ r)) ++ "\n</requirements>\n"
    else p
  let p := if cons.length ≠ 0 then
      p ++ "\n<constraints>\n" ++
        String.intercalate "\n" (cons.map (fun c => "- " ++ c)) ++ "\n</constraints>\n"
    else p
  let p := p ++ "\n<output_format>\n" ++ out ++
    "\n</output_format>\n\n<thinking>\nPlease think step by step before responding.\n</thinking>"
  { llmName := "Claude", description := "XML tags + structured thinking",
    formattedPrompt := p }

/-- `formatForGemini` of `src/app/api/format/route.ts`. -/
def formatForGemini (ctx : String) (reqs cons : List String) (out : String) :
    FormattedPrompt :=
  let p := "# Task\n" ++ ctx ++ "\n"
  let p := if reqs.length ≠ 0 then
      p ++ "\n## Requirements\n" ++
        String.intercalate "\n" (reqs.map (fun r => "* " ++ r)) ++ "\n"
    else p
  let p := if cons.length ≠ 0 then
      p ++ "\n## Constraints\n" ++
        String.intercalate "\n" (cons.map (fun c => "* " ++ c)) ++ "\n"
    else p
  let p := p ++ "\n## Expected Output\n" ++ out ++
    "\n\n---\n*Please provide a thorough, well-organized response.*"
  { llmName := "Gemini", description := "Markdown with grounding", formattedPrompt := p }

/-- `formatForChatGPT` of `src/app/api/format/route.ts`. -/
def formatForChatGPT (ctx : String) (reqs cons : List String) (out intent : String) :
    FormattedPrompt :=
  let system := "You are an expert " ++ toLowerStr intent ++
    " assistant. Follow the user's instructions precisely."
  let user := ctx
  let user := if reqs.length ≠ 0 then
      user ++ "\n\nRequirements:\n" ++ String.intercalate "\n" (reqs.map (fun r => "- " ++ r))
    else user
  let user := if cons.length ≠ 0 then
      user ++ "\n\nConstraints:\n" ++ String.intercalate "\n" (cons.map (fun c => "- " ++ c))
    else user
  let user := user ++ "\n\nExpected output: " ++ out
  { llmName := "ChatGPT", description := "System/User message split",
    formattedPrompt := "[System]\n" ++ system ++ "\n\n[User]\n" ++ user }

/-- `formatForDeepSeek` of `src/app/api/format/route.ts`. -/
def formatForDeepSeek (ctx : String) (reqs cons : List String) (out : String) :
    FormattedPrompt :=
  let p := "Let me think about this step by step.\n\n**Task:** " ++ ctx ++ "\n"
  let p := if reqs.length ≠ 0 then
      p ++ "\n**Requirements:**\n" ++
        String.intercalate "\n" (reqs.map (fun r => "- " ++ r)) ++ "\n"
    else p
  let p := if cons.length ≠ 0 then
      p ++ "\n**Constraints:**\n" ++
        String.intercalate "\n" (cons.map (fun c => "- " ++ c)) ++ "\n"
    else p
  let p := p ++ "\n**Expected Output:** " ++ out ++
    "\n\nPlease reason through this carefully, showing your thought process before providing the final answer."
  { llmName := "DeepSeek", description := "Chain-of-thought reasoning", formattedPrompt := p }

/-- `formatForGrok` of `src/app/api/format/route.ts`. -/
def formatForGrok (ctx : String) (reqs cons : List String) (out : String) :
    FormattedPrompt :=
  let p := ctx
  let p := if reqs.length ≠ 0 then
      p ++ " Requirements: " ++ String.intercalate ", " reqs ++ "."
    else p
  let p := if cons.length ≠ 0 then
      p ++ " Avoid: " ++ String.intercalate ", " cons ++ "."
    else p
  let p := p ++ " Output: " ++ out ++ ". Be direct and concise."
  { llmName := "Grok", description := "Concise & direct", formattedPrompt := p }

/-- The `allFormats` array `POST` builds on the rule-based path. -/
def allFormats (context : String) (requirements constraints : List String)
    (outputFormat intent : String) : List FormattedPrompt :=
  [formatForClaude context requirements constraints outputFormat,
   formatForGemini context requirements constraints outputFormat,
   formatForChatGPT context requirements constraints outputFormat intent,
   formatForDeepSeek context requirements constraints outputFormat,
   formatForGrok context requirements constraints outputFormat]

/-- Response of the format boundary: a success payload or a client error
with its HTTP status. -/
inductive RouteResponse where
  | ok (data : List FormattedPrompt)
  | err (msg : String) (status : Nat)
deriving DecidableEq, Repr

/-- `POST` of `src/app/api/format/route.ts` on the rule-based path (no
`apiKey`, so the hosted-model branch is never entered).  `prompt = none`
models a missing `prompt` field; an empty `context` is falsy in
JavaScript, so `!prompt.context` rejects it too.  `targetLLM = some ""`
is falsy as well and behaves like an absent target. -/
def formatPOST (prompt : Option PromptData) (targetLLM : Option String) : RouteResponse :=
  match prompt with
  | none => RouteResponse.err "Prompt data is required" 400
  | some p =>
    if p.context = "" then RouteResponse.err "Prompt data is required" 400
    else
      let requirements := p.requirements.getD []
      let constraints := p.constraints.getD []
      let outputFormat := p.outputFormat.getD "Clear response"
      let intent := p.intent.getD "General"
      let formats := allFormats p.context requirements constraints outputFormat intent
      if (targetLLM.getD "") ≠ "" then
        let t := targetLLM.getD ""
        match formats.find? (fun f => toLowerStr f.llmName == toLowerStr t) with
        | some m => RouteResponse.ok [m]
        | none => RouteResponse.err ("Unknown LLM: " ++ t) 400
      else RouteResponse.ok formats

end FormatRoute

/-! ## Helper lemmas -/

namespace Structurer

open VoicePrompt

/-- A seed below an accumulation step stays below it. -/
lemma le_ite_add {a b k : ℕ} {c : Prop} [Decidable c] (h : a ≤ b) :
    a ≤ if c then b + k else b := by
  by_cases hc : c
  · rw [if_pos hc]; omega
  · rw [if_neg hc]; exact h

/-- `calculateQualityScore` always lands in `[40, 100]`. -/
lemma calculateQualityScore_bounds (p : StructuredPrompt) :
    40 ≤ calculateQualityScore p ∧ calculateQualityScore p ≤ 100 := by
  simp only [calculateQualityScore]
  exact ⟨Nat.le_min.mpr ⟨le_ite_add (le_ite_add (le_ite_add (le_ite_add (le_ite_add
    (le_ite_add (le_ite_add (le_ite_add (Nat.le_refl 40)))))))), by omega⟩,
    Nat.min_le_right _ _⟩

/-- Monotone step for one `score += k if c` accumulation. -/
lemma ite_add_le_ite_add {c d : Prop} [Decidable c] [Decidable d] {a b k : ℕ}
    (hab : a ≤ b) (hcd : c → d) :
    (if c then a + k else a) ≤ (if d then b + k else b) := by
  by_cases hc : c
  · rw [if_pos hc, if_pos (hcd hc)]
    omega
  · rw [if_neg hc]
    by_cases hd : d
    · rw [if_pos hd]; omega
    · rw [if_neg hd]; exact hab

/-- A zero-scoring keyword list contributes nothing to the fold. -/
lemma scoreFor_eq_zero (lower : String) (kws : List String)
    (h : ∀ kw ∈ kws, containsStr lower kw = false) : scoreFor lower kws = 0 := by
  have aux : ∀ (l : List String) (a : ℕ), (∀ kw ∈ l, containsStr lower kw = false) →
      l.foldl (fun acc kw =>
        if containsStr lower kw then acc + (jsSplitSingleSpace kw).length
        else acc) a = a := by
    intro l
    induction l with
    | nil => intro a _; rfl
    | cons kw l ih =>
      intro a hl
      simp only [List.foldl, hl kw (by simp), Bool.false_eq_true, if_false]
      exact ih a (fun k hk => hl k (by simp [hk]))
  exact aux kws 0 (fun kw hkw => h kw hkw)

/-- When every category scores zero, the best-score fold keeps its seed. -/
lemma detect_foldl_zero (lower : String) (l : List (String × List String))
    (h : ∀ p ∈ l, scoreFor lower p.2 = 0) (b : String × ℕ) :
    l.foldl (fun best p =>
      let score := scoreFor lower p.2
      if score > best.2 then (p.1, score) else best) b = b := by
  induction l generalizing b with
  | nil => rfl
  | cons p l ih =>
    simp only [List.foldl, h p (by simp)]
    have : ¬ (0 > b.2) := by omega
    simp only [this, if_false]
    exact ih (fun q hq => h q (by simp [hq])) b

/-- The best-score fold returns its seed's label or one of the listed labels. -/
lemma detect_foldl_fst_mem (lower : String) (l : List (String × List String))
    (b : String × ℕ) :
    (l.foldl (fun best p =>
      let score := scoreFor lower p.2
      if score > best.2 then (p.1, score) else best) b).1 = b.1 ∨
    (l.foldl (fun best p =>
      let score := scoreFor lower p.2
      if score > best.2 then (p.1, score) else best) b).1 ∈ l.map Prod.fst := by
  induction l generalizing b with
  | nil => exact Or.inl rfl
  | cons p l ih =>
    simp only [List.foldl, List.map]
    by_cases hs : scoreFor lower p.2 > b.2
    · simp only [hs, if_pos]
      rcases ih (p.1, scoreFor lower p.2) with h | h
      · exact Or.inr (by simp [h])
      · exact Or.inr (by simp [h])
    · simp only [hs, if_neg, not_false_eq_true]
      rcases ih b with h | h
      · exact Or.inl h
      · exact Or.inr (by simp [h])

end Structurer

namespace Conversation

open VoicePrompt

/-- Accumulating nonnegative word counts never decreases the accumulator. -/
lemma foldl_words_ge (l : List Msg) (s : ℕ) :
    s ≤ l.foldl (fun acc m => acc + (jsWords m.content).length) s := by
  induction l generalizing s with
  | nil => exact Nat.le_refl s
  | cons m l ih =>
    calc s ≤ s + (jsWords m.content).length := Nat.le_add_right _ _
      _ ≤ _ := ih _

/-- Appending messages can only grow the user word count. -/
lemma userWordCount_le_append (msgs more : List Msg) :
    userWordCount msgs ≤ userWordCount (msgs ++ more) := by
  simp only [userWordCount, List.filter_append, List.foldl_append]
  exact foldl_words_ge _ _

/-- `isIntentComplete` is monotone under appending messages. -/
lemma isIntentComplete_mono (msgs more : List Msg)
    (h : isIntentComplete msgs = true) : isIntentComplete (msgs ++ more) = true := by
  have hw := userWordCount_le_append msgs more
  have hl : msgs.length ≤ (msgs ++ more).length := by
    simp [List.length_append]
  simp only [isIntentComplete] at h ⊢
  split_ifs at h ⊢ with h1 h2 h3 h4 <;> first | rfl | omega

/-- `isIntentComplete = false` bounds the message count below four. -/
lemma isIntentComplete_false_length (msgs : List Msg)
    (h : isIntentComplete msgs = false) : msgs.length < 4 := by
  simp only [isIntentComplete] at h
  split_ifs at h with h1 h2
  omega

/-- The appended user message does not change the asked-question list. -/
lemma askedQuestions_append_user (msgs : List Msg) (t : String) :
    askedQuestions (msgs ++ [{ role := Role.user, content := t }]) =
      askedQuestions msgs := by
  simp [askedQuestions, List.filter_append]

/-- The asked-question list is no longer than the message list. -/
lemma askedQuestions_length_le (msgs : List Msg) :
    (askedQuestions msgs).length ≤ msgs.length := by
  simp only [askedQuestions, List.length_map]
  exact List.length_filter_le _ _

/-- Three pairwise distinct members force a list length of at least three. -/
lemma three_distinct_length (a b c : String) (xs : List String)
    (hab : a ≠ b) (hac : a ≠ c) (hbc : b ≠ c)
    (ha : a ∈ xs) (hb : b ∈ xs) (hc : c ∈ xs) : 3 ≤ xs.length := by
  have hsub : ({a, b, c} : Finset String) ⊆ xs.toFinset := by
    intro z hz
    simp only [Finset.mem_insert, Finset.mem_singleton] at hz
    rcases hz with rfl | rfl | rfl
    · exact List.mem_toFinset.mpr ha
    · exact List.mem_toFinset.mpr hb
    · exact List.mem_toFinset.mpr hc
  have hcard : ({a, b, c} : Finset String).card = 3 := by
    rw [Finset.card_insert_of_not_mem (by simp [hab, hac]),
        Finset.card_insert_of_not_mem (by simp [hbc]), Finset.card_singleton]
  calc 3 = ({a, b, c} : Finset String).card := hcard.symm
    _ ≤ xs.toFinset.card := Finset.card_le_card hsub
    _ ≤ xs.length := xs.toFinset_card_le

/-- Every clarifying-template list contains three pairwise distinct questions. -/
lemma templates_three_distinct (intent : String) :
    ∃ a b c, a ≠ b ∧ a ≠ c ∧ b ≠ c ∧
      a ∈ clarifyingTemplatesFor intent ∧ b ∈ clarifyingTemplatesFor intent ∧
      c ∈ clarifyingTemplatesFor intent := by
  unfold clarifyingTemplatesFor
  split_ifs
  · exact ⟨"What programming language or framework would you like me to use?",
      "Should I include error handling and edge cases?",
      "Do you need tests included with the code?",
      by decide, by decide, by decide, by simp, by simp, by simp⟩
  · exact ⟨"What tone should the writing be — formal, casual, or conversational?",
      "Who is the target audience?", "How long should the content be?",
      by decide, by decide, by decide, by simp, by simp, by simp⟩
  · exact ⟨"What specific aspects should I focus on?",
      "Do you need data sources or citations?",
      "Should I compare multiple options or focus on one?",
      by decide, by decide, by decide, by simp, by simp, by simp⟩
  · exact ⟨"Can you describe what's happening vs what you expected?",
      "What have you already tried?", "Are there any error messages?",
      by decide, by decide, by decide, by simp, by simp, by simp⟩
  · exact ⟨"Could you tell me a bit more about what you're looking for?",
      "What's the main goal you want to achieve?",
      "Are there any specific requirements or constraints?",
      by decide, by decide, by decide, by simp, by simp, by simp⟩

/-- With at most two previously asked questions, `pickClarifyingQuestion`
returns a question that was never asked. -/
lemma pickClarifyingQuestion_not_asked (intent : String) (msgs : List Msg)
    (h : (askedQuestions msgs).length ≤ 2) :
    pickClarifyingQuestion intent msgs ∉ askedQuestions msgs := by
  obtain ⟨a, b, c, hab, hac, hbc, ha, hb, hc⟩ := templates_three_distinct intent
  simp only [pickClarifyingQuestion]
  rcases hunasked : (clarifyingTemplatesFor intent).filter
      (fun q => !((askedQuestions msgs).contains q)) with _ | ⟨q, rest⟩
  · -- impossible: all three distinct templates would have to be asked
    exfalso
    have hall : ∀ q ∈ clarifyingTemplatesFor intent, q ∈ askedQuestions msgs := by
      intro q hq
      have := List.filter_eq_nil_iff.mp hunasked q hq
      simpa using this
    exact absurd (three_distinct_length a b c _ hab hac hbc
      (hall a ha) (hall b hb) (hall c hc)) (by omega)
  · have hqmem : q ∈ (clarifyingTemplatesFor intent).filter
        (fun q => !((askedQuestions msgs).contains q)) := by
      rw [hunasked]; exact List.mem_cons_self _ _
    have := (List.mem_filter.mp hqmem).2
    simpa using this

end Conversation

namespace Conversation

/-- The state after a turn carries `isComplete = isIntentComplete` of the
messages including the just-appended user message. -/
lemma processUserInput_isComplete (s : ConversationState) (t i : String) :
    ((processUserInput s t i).2).isComplete =
      isIntentComplete (s.messages ++ [{ role := Role.user, content := t }]) := by
  simp only [processUserInput, addUserMessage, addAssistantMessage]
  by_cases hcomp :
      isIntentComplete (s.messages ++ [{ role := Role.user, content := t }]) = true
  · simp [hcomp]
  · simp only [Bool.not_eq_true] at hcomp
    simp [hcomp]

/-- The messages after a turn are the old ones, the user message, then the
assistant reply. -/
lemma processUserInput_messages (s : ConversationState) (t i : String) :
    ((processUserInput s t i).2).messages =
      s.messages ++ [{ role := Role.user, content := t }]
        ++ [{ role := Role.assistant, content := (processUserInput s t i).1.1 }] := by
  simp only [processUserInput, addUserMessage, addAssistantMessage]
  by_cases hcomp :
      isIntentComplete (s.messages ++ [{ role := Role.user, content := t }]) = true
  · simp [hcomp]
  · simp only [Bool.not_eq_true] at hcomp
    simp [hcomp]

/-- Along any reachable state, a true `isComplete` flag certifies that the
recorded messages really pass `isIntentComplete`. -/
lemma reachable_isComplete_sound (s : ConversationState) (hr : Reachable s) :
    s.isComplete = true → isIntentComplete s.messages = true := by
  induction hr with
  | init => intro hc; simp [initialState] at hc
  | user s c hr ih =>
    intro hc
    exact isIntentComplete_mono s.messages [{ role := Role.user, content := c }] (ih hc)
  | assistant s c hr ih =>
    intro hc
    exact isIntentComplete_mono s.messages [{ role := Role.assistant, content := c }] (ih hc)
  | process s t i hr ih =>
    intro hc
    rw [processUserInput_isComplete] at hc
    rw [processUserInput_messages]
    exact isIntentComplete_mono _ _ hc

end Conversation

/-! ## Claims -/

open VoicePrompt

/-- C10: for every input text and optional history flag, the quality score
of the `StructuredPrompt` returned by `structurePrompt` lies between 40
and 100 inclusive: the base score of 40 is a guaranteed lower bound. -/
theorem spec_c10 (rawText : String) (conversationHistory : Option String) :
    40 ≤ (Structurer.structurePrompt rawText conversationHistory).qualityScore ∧
    (Structurer.structurePrompt rawText conversationHistory).qualityScore ≤ 100 :=
  Structurer.calculateQualityScore_bounds
    (Structurer.structurePromptBase rawText conversationHistory)

/-- C6: `calculateQualityScore` is monotonically non-decreasing in the
requirements and constraints counts, holding the `fullPrompt` length and
the intent fixed. -/
theorem spec_c6 (p q : Structurer.StructuredPrompt)
    (hlen : p.fullPrompt.length = q.fullPrompt.length)
    (hint : p.intent = q.intent)
    (hreq : p.requirements.length ≤ q.requirements.length)
    (hcon : p.constraints.length ≤ q.constraints.length) :
    Structurer.calculateQualityScore p ≤ Structurer.calculateQualityScore q := by
  simp only [Structurer.calculateQualityScore]
  rw [hlen, hint]
  refine min_le_min ?_ (Nat.le_refl 100)
  exact Structurer.ite_add_le_ite_add (Structurer.ite_add_le_ite_add
    (Structurer.ite_add_le_ite_add (Structurer.ite_add_le_ite_add
      (Structurer.ite_add_le_ite_add (Structurer.ite_add_le_ite_add
        (Structurer.ite_add_le_ite_add (Structurer.ite_add_le_ite_add
          (Nat.le_refl 40) (fun h => h)) (fun h => h)) (fun h => h))
            (fun h => Nat.lt_of_lt_of_le h hreq))
          (fun h => Nat.lt_of_lt_of_le h hreq))
        (fun h => Nat.lt_of_lt_of_le h hreq))
      (fun h => Nat.lt_of_lt_of_le h hcon))
    (fun h => h)

/-- A prompt with nothing extracted, used as a concrete base point. -/
def promptA : Structurer.StructuredPrompt :=
  { title := "t", intent := "General", context := "c", requirements := [],
    constraints := [], outputFormat := "o", fullPrompt := "f", qualityScore := 0 }

/-- The same prompt with one requirement and one constraint added. -/
def promptB : Structurer.StructuredPrompt :=
  { promptA with requirements := ["needs auth"], constraints := ["no paid services"] }

theorem spec_c6_witness :
    Structurer.calculateQualityScore promptA ≤ Structurer.calculateQualityScore promptB :=
  spec_c6 promptA promptB rfl rfl (by decide) (by decide)

/-- C5: whenever the `[.!?]` split of the text has a sentence whose
trimmed length exceeds 5 characters, `extractRequirements` is non-empty
(the signal-bearing sentences, or every qualifying sentence as fallback). -/
theorem spec_c5 (text : String)
    (h : ∃ s ∈ jsSplit isSentBoundary text, (jsTrim s).length > 5) :
    Structurer.extractRequirements text ≠ [] := by
  obtain ⟨s, hsmem, hlen⟩ := h
  have hsent : s ∈ (jsSplit isSentBoundary text).filter
      (fun t => (jsTrim t).length > 5) := by
    rw [List.mem_filter]
    exact ⟨hsmem, by simpa using hlen⟩
  simp only [Structurer.extractRequirements]
  split_ifs with hz
  · intro hnil
    have hmap : jsTrim s ∈ ((jsSplit isSentBoundary text).filter
        (fun t => (jsTrim t).length > 5)).map jsTrim :=
      List.mem_map_of_mem jsTrim hsent
    have hmem2 : jsTrim s ∈ (((jsSplit isSentBoundary text).filter
        (fun t => (jsTrim t).length > 5)).map jsTrim).filter
        (fun t => t.length > 5) := by
      rw [List.mem_filter]
      exact ⟨hmap, by simpa using hlen⟩
    rw [hnil] at hmem2
    cases hmem2
  · intro hnil
    apply hz
    rw [hnil]
    rfl

theorem spec_c5_witness : Structurer.extractRequirements "hello world." ≠ [] :=
  spec_c5 "hello world." ⟨"hello world", by decide, by decide⟩

/-- C4: the structurer's intent classifier only returns labels from the
closed set (its keyword-table keys plus `General`), and when no keyword of
any category occurs in the lowered text it returns exactly `General`. -/
theorem spec_c4 (text : String) :
    (Structurer.detectIntent text = "General" ∨
      Structurer.detectIntent text ∈ Structurer.INTENT_PATTERNS.map Prod.fst) ∧
    ((∀ p ∈ Structurer.INTENT_PATTERNS, ∀ kw ∈ p.2,
        containsStr (toLowerStr text) kw = false) →
      Structurer.detectIntent text = "General") := by
  constructor
  · exact Structurer.detect_foldl_fst_mem (toLowerStr text)
      Structurer.INTENT_PATTERNS ("General", 0)
  · intro hno
    have h0 : ∀ p ∈ Structurer.INTENT_PATTERNS,
        Structurer.scoreFor (toLowerStr text) p.2 = 0 :=
      fun p hp => Structurer.scoreFor_eq_zero _ _ (hno p hp)
    exact congrArg Prod.fst
      (Structurer.detect_foldl_zero (toLowerStr text)
        Structurer.INTENT_PATTERNS h0 ("General", 0))

theorem spec_c4_witness : Structurer.detectIntent "zzz" = "General" :=
  (spec_c4 "zzz").2 (by decide)

/-- C8: `formatForAllLLMs` always returns exactly five formatted prompts,
one per target in the fixed order Claude, Gemini, ChatGPT, DeepSeek, Grok,
and is a pure function of the `StructuredPrompt`: equal inputs give equal
outputs. -/
theorem spec_c8 (p : Structurer.StructuredPrompt) :
    (Formatters.formatForAllLLMs p).length = 5 ∧
    (Formatters.formatForAllLLMs p).map Formatters.FormattedPrompt.llmName =
      ["Claude", "Gemini", "ChatGPT", "DeepSeek", "Grok"] ∧
    ∀ q : Structurer.StructuredPrompt, p = q →
      Formatters.formatForAllLLMs p = Formatters.formatForAllLLMs q :=
  ⟨rfl, rfl, fun _ h => by rw [h]⟩

theorem spec_c8_witness :
    Formatters.formatForAllLLMs promptA = Formatters.formatForAllLLMs promptA :=
  (spec_c8 promptA).2.2 promptA rfl

/-- C2: within one session (any reachable state, no reset), once
`isComplete` is true, a further `processUserInput` call leaves it true. -/
theorem spec_c2 (s : Conversation.ConversationState) (hr : Conversation.Reachable s)
    (hc : s.isComplete = true) (t i : String) :
    ((Conversation.processUserInput s t i).2).isComplete = true := by
  rw [Conversation.processUserInput_isComplete]
  exact Conversation.isIntentComplete_mono _ _
    (Conversation.reachable_isComplete_sound s hr hc)

/-- A sixteen-word opening transcript, enough to complete the intent. -/
def c2Seed : String :=
  "one two three four five six seven eight nine ten eleven twelve thirteen fourteen fifteen sixteen"

/-- The session state after that one opening turn. -/
def c2State : Conversation.ConversationState :=
  (Conversation.processUserInput Conversation.initialState c2Seed "General").2

theorem spec_c2_witness :
    ((Conversation.processUserInput c2State "also add dark mode" "General").2).isComplete
      = true :=
  spec_c2 c2State
    (Conversation.Reachable.process Conversation.initialState c2Seed "General"
      Conversation.Reachable.init)
    (by decide) "also add dark mode" "General"

/-- C3: whenever `processUserInput` replies with a clarifying question
(`shouldStructure = false`), that question differs literally from every
previously recorded assistant message of the session state. -/
theorem spec_c3 (s : Conversation.ConversationState) (t i : String)
    (h : (Conversation.processUserInput s t i).1.2 = false) :
    (Conversation.processUserInput s t i).1.1 ∉
      Conversation.askedQuestions s.messages := by
  by_cases hcomp : Conversation.isIntentComplete
      (s.messages ++ [{ role := Conversation.Role.user, content := t }]) = true
  · exfalso
    simp [Conversation.processUserInput, Conversation.addUserMessage, hcomp] at h
  · have hcomp' : Conversation.isIntentComplete
        (s.messages ++ [{ role := Conversation.Role.user, content := t }]) = false := by
      simpa using hcomp
    have hresp : (Conversation.processUserInput s t i).1.1 =
        Conversation.pickClarifyingQuestion i
          (s.messages ++ [{ role := Conversation.Role.user, content := t }]) := by
      simp [Conversation.processUserInput, Conversation.addUserMessage, hcomp']
    rw [hresp, ← Conversation.askedQuestions_append_user s.messages t]
    apply Conversation.pickClarifyingQuestion_not_asked
    have hlen := Conversation.isIntentComplete_false_length _ hcomp'
    calc (Conversation.askedQuestions
            (s.messages ++ [{ role := Conversation.Role.user, content := t }])).length
        = (Conversation.askedQuestions s.messages).length := by
          rw [Conversation.askedQuestions_append_user]
      _ ≤ s.messages.length := Conversation.askedQuestions_length_le _
      _ ≤ 2 := by simp [List.length_append] at hlen; omega

theorem spec_c3_witness :
    (Conversation.processUserInput Conversation.initialState "hi" "General").1.1 ∉
      Conversation.askedQuestions Conversation.initialState.messages :=
  spec_c3 Conversation.initialState "hi" "General" (by decide)

/-- The scenario input of the specification's §8 test case. -/
def c7Input : String :=
  "Build me a REST API in Python with authentication, but don't use any paid services."

/-- C7: on the scenario input, the structurer classifies the intent as
`Code Generation`, the extracted constraints contain the clause about not
using paid services, and the derived output format mentions code and
comments. -/
theorem spec_c7 :
    Structurer.detectIntent c7Input = "Code Generation" ∧
    (∃ c ∈ Structurer.extractConstraints c7Input,
      containsStr (toLowerStr c) "paid services" = true ∧
      containsStr (toLowerStr c) "don't" = true) ∧
    containsStr (toLowerStr
      (Structurer.determineOutputFormat (Structurer.detectIntent c7Input) c7Input))
      "code" = true ∧
    containsStr (toLowerStr
      (Structurer.determineOutputFormat (Structurer.detectIntent c7Input) c7Input))
      "comments" = true :=
  ⟨by decide,
   ⟨"Build me a REST API in Python with authentication, but don't use any paid services",
     by decide, by decide, by decide⟩,
   by decide, by decide⟩

/-- C1: at the turn-processing boundary, when every clarifying template of
the detected category already appears among the assistant messages of the
history and the completeness check has not fired (the machine is still
collecting), the response is the generic closing line and
`shouldStructure` is reported true: an exhausted template list is treated
as ready-to-structure. -/
theorem spec_c1 (transcript : String) (history : List Conversation.Msg)
    (hval : (jsTrim transcript).length ≠ 0)
    (hwords : ¬ ConverseRoute.totalWords history transcript > 15)
    (hturns : history.length < 4)
    (hasked : ∀ q ∈ ConverseRoute.clarifyingTemplatesFor
        (ConverseRoute.detectIntent transcript),
      q ∈ Conversation.askedQuestions history) :
    ConverseRoute.conversePOST transcript history = Except.ok
      { response := ConverseRoute.closingLine, shouldStructure := true,
        intent := ConverseRoute.detectIntent transcript, isComplete := false } := by
  have hun : (ConverseRoute.clarifyingTemplatesFor
      (ConverseRoute.detectIntent transcript)).filter
        (fun q => !((Conversation.askedQuestions history).contains q)) = [] := by
    rw [List.filter_eq_nil_iff]
    intro q hq
    simp [hasked q hq]
  have hcomplete : (decide (ConverseRoute.totalWords history transcript > 15) ||
      decide (history.length ≥ 4)) = false := by
    simp only [Bool.or_eq_false_iff, decide_eq_false_iff_not]
    exact ⟨hwords, by omega⟩
  simp only [ConverseRoute.conversePOST]
  rw [if_neg hval]
  simp only [hcomplete, Bool.false_eq_true, if_false, hun, List.isEmpty_nil]

/-- A history in which all three `General` templates were already asked. -/
def c1History : List Conversation.Msg :=
  [{ role := Conversation.Role.assistant,
     content := "Could you tell me a bit more about what you're looking for?" },
   { role := Conversation.Role.assistant,
     content := "What's the main goal you want to achieve?" },
   { role := Conversation.Role.assistant,
     content := "Are there any specific requirements or constraints I should know about?" }]

theorem spec_c1_witness :
    ConverseRoute.conversePOST "hello" c1History = Except.ok
      { response := ConverseRoute.closingLine, shouldStructure := true,
        intent := ConverseRoute.detectIntent "hello", isComplete := false } :=
  spec_c1 "hello" c1History (by decide) (by decide) (by decide) (by decide)

namespace FormatRoute

/-- The fixed target names of the rule-based format route. -/
def supportedLLMNames : List String :=
  ["Claude", "Gemini", "ChatGPT", "DeepSeek", "Grok"]

lemma llmName_claude (ctx : String) (reqs cons : List String) (out : String) :
    (formatForClaude ctx reqs cons out).llmName = "Claude" := rfl

lemma llmName_gemini (ctx : String) (reqs cons : List String) (out : String) :
    (formatForGemini ctx reqs cons out).llmName = "Gemini" := rfl

lemma llmName_chatgpt (ctx : String) (reqs cons : List String) (out intent : String) :
    (formatForChatGPT ctx reqs cons out intent).llmName = "ChatGPT" := rfl

lemma llmName_deepseek (ctx : String) (reqs cons : List String) (out : String) :
    (formatForDeepSeek ctx reqs cons out).llmName = "DeepSeek" := rfl

lemma llmName_grok (ctx : String) (reqs cons : List String) (out : String) :
    (formatForGrok ctx reqs cons out).llmName = "Grok" := rfl

/-- The names of `allFormats`, in order. -/
lemma allFormats_map_llmName (ctx : String) (reqs cons : List String)
    (out intent : String) :
    (allFormats ctx reqs cons out intent).map FormattedPrompt.llmName =
      supportedLLMNames := rfl

/-- No supported name matches an unknown target, so `find?` fails. -/
lemma find_allFormats_none (ctx : String) (reqs cons : List String)
    (out intent t : String)
    (hno : ∀ n ∈ supportedLLMNames, toLowerStr n ≠ toLowerStr t) :
    (allFormats ctx reqs cons out intent).find?
      (fun f => toLowerStr f.llmName == toLowerStr t) = none := by
  rw [List.find?_eq_none]
  intro f hf
  have hn : f.llmName ∈ supportedLLMNames := by
    have := List.mem_map_of_mem FormattedPrompt.llmName hf
    rwa [allFormats_map_llmName] at this
  simp only [beq_iff_eq]
  exact hno _ hn

end FormatRoute

/-- A concrete prompt body for exercising the format boundary. -/
def c9Prompt : FormatRoute.PromptData :=
  { context := "Build a small site", requirements := none, constraints := none,
    outputFormat := none, intent := none }

/-- C9 counterexample: the empty string is not a supported target name
(case-insensitively), yet supplying `targetLLM = ""` makes the route
return the full five-format set instead of the unknown-target error,
because an empty string is falsy in JavaScript and the `if (targetLLM)`
guard treats it as absent. -/
theorem spec_c9_counterexample :
    (∀ n ∈ FormatRoute.supportedLLMNames, toLowerStr n ≠ toLowerStr "") ∧
    FormatRoute.formatPOST (some c9Prompt) (some "") =
      FormatRoute.RouteResponse.ok
        (FormatRoute.allFormats "Build a small site" [] [] "Clear response" "General") :=
  ⟨by decide, rfl⟩

/-- C9 (amended): for a valid prompt and a NON-EMPTY target name, an
unrecognized name (case-insensitively unequal to every supported name)
yields the distinct `Unknown LLM` client error, and a recognized name
yields exactly that one formatted prompt. -/
theorem spec_c9 (p : FormatRoute.PromptData) (t : String)
    (hctx : p.context ≠ "") (ht : t ≠ "") :
    ((∀ n ∈ FormatRoute.supportedLLMNames, toLowerStr n ≠ toLowerStr t) →
      FormatRoute.formatPOST (some p) (some t) =
        FormatRoute.RouteResponse.err ("Unknown LLM: " ++ t) 400) ∧
    (∀ n ∈ FormatRoute.supportedLLMNames, toLowerStr n = toLowerStr t →
      ∃ f, FormatRoute.formatPOST (some p) (some t) =
          FormatRoute.RouteResponse.ok [f] ∧ f.llmName = n) := by
  constructor
  · intro hno
    simp only [FormatRoute.formatPOST, Option.getD_some]
    rw [if_neg hctx, if_pos ht,
      FormatRoute.find_allFormats_none _ _ _ _ _ _ hno]
  · intro n hn hlow
    simp only [FormatRoute.supportedLLMNames, List.mem_cons,
      List.not_mem_nil, or_false] at hn
    rcases hn with rfl | rfl | rfl | rfl | rfl
    · have htlow : toLowerStr t = "claude" := by rw [← hlow]; decide
      refine ⟨FormatRoute.formatForClaude p.context (p.requirements.getD [])
        (p.constraints.getD []) (p.outputFormat.getD "Clear response"), ?_, rfl⟩
      simp only [FormatRoute.formatPOST, Option.getD_some]
      rw [if_neg hctx, if_pos ht]
      rw [show (FormatRoute.allFormats p.context (p.requirements.getD [])
          (p.constraints.getD []) (p.outputFormat.getD "Clear response")
          (p.intent.getD "General")).find?
            (fun f => toLowerStr f.llmName == toLowerStr t) =
          some (FormatRoute.formatForClaude p.context (p.requirements.getD [])
            (p.constraints.getD []) (p.outputFormat.getD "Clear response")) from by
        simp only [FormatRoute.allFormats]
        exact List.find?_cons_of_pos _ (by
          simp only [FormatRoute.llmName_claude, htlow]; decide)]
    · have htlow : toLowerStr t = "gemini" := by rw [← hlow]; decide
      refine ⟨FormatRoute.formatForGemini p.context (p.requirements.getD [])
        (p.constraints.getD []) (p.outputFormat.getD "Clear response"), ?_, rfl⟩
      simp only [FormatRoute.formatPOST, Option.getD_some]
      rw [if_neg hctx, if_pos ht]
      rw [show (FormatRoute.allFormats p.context (p.requirements.getD [])
          (p.constraints.getD []) (p.outputFormat.getD "Clear response")
          (p.intent.getD "General")).find?
            (fun f => toLowerStr f.llmName == toLowerStr t) =
          some (FormatRoute.formatForGemini p.context (p.requirements.getD [])
            (p.constraints.getD []) (p.outputFormat.getD "Clear response")) from by
        simp only [FormatRoute.allFormats]
        rw [List.find?_cons_of_neg _ (by
          simp only [FormatRoute.llmName_claude, htlow]; decide)]
        exact List.find?_cons_of_pos _ (by
          simp only [FormatRoute.llmName_gemini, htlow]; decide)]
    · have htlow : toLowerStr t = "chatgpt" := by rw [← hlow]; decide
      refine ⟨FormatRoute.formatForChatGPT p.context (p.requirements.getD [])
        (p.constraints.getD []) (p.outputFormat.getD "Clear response")
        (p.intent.getD "General"), ?_, rfl⟩
      simp only [FormatRoute.formatPOST, Option.getD_some]
      rw [if_neg hctx, if_pos ht]
      rw [show (FormatRoute.allFormats p.context (p.requirements.getD [])
          (p.constraints.getD []) (p.outputFormat.getD "Clear response")
          (p.intent.getD "General")).find?
            (fun f => toLowerStr f.llmName == toLowerStr t) =
          some (FormatRoute.formatForChatGPT p.context (p.requirements.getD [])
            (p.constraints.getD []) (p.outputFormat.getD "Clear response")
            (p.intent.getD "General")) from by
        simp only [FormatRoute.allFormats]
        rw [List.find?_cons_of_neg _ (by
          simp only [FormatRoute.llmName_claude, htlow]; decide)]
        rw [List.find?_cons_of_neg _ (by
          simp only [FormatRoute.llmName_gemini, htlow]; decide)]
        exact List.find?_cons_of_pos _ (by
          simp only [FormatRoute.llmName_chatgpt, htlow]; decide)]
    · have htlow : toLowerStr t = "deepseek" := by rw [← hlow]; decide
      refine ⟨FormatRoute.formatForDeepSeek p.context (p.requirements.getD [])
        (p.constraints.getD []) (p.outputFormat.getD "Clear response"), ?_, rfl⟩
      simp only [FormatRoute.formatPOST, Option.getD_some]
      rw [if_neg hctx, if_pos ht]
      rw [show (FormatRoute.allFormats p.context (p.requirements.getD [])
          (p.constraints.getD []) (p.outputFormat.getD "Clear response")
          (p.intent.getD "General")).find?
            (fun f => toLowerStr f.llmName == toLowerStr t) =
          some (FormatRoute.formatForDeepSeek p.context (p.requirements.getD [])
            (p.constraints.getD []) (p.outputFormat.getD "Clear response")) from by
        simp only [FormatRoute.allFormats]
        rw [List.find?_cons_of_neg _ (by
          simp only [FormatRoute.llmName_claude, htlow]; decide)]
        rw [List.find?_cons_of_neg _ (by
          simp only [FormatRoute.llmName_gemini, htlow]; decide)]
        rw [List.find?_cons_of_neg _ (by
          simp only [FormatRoute.llmName_chatgpt, htlow]; decide)]
        exact List.find?_cons_of_pos _ (by
          simp only [FormatRoute.llmName_deepseek, htlow]; decide)]
    · have htlow : toLowerStr t = "grok" := by rw [← hlow]; decide
      refine ⟨FormatRoute.formatForGrok p.context (p.requirements.getD [])
        (p.constraints.getD []) (p.outputFormat.getD "Clear response"), ?_, rfl⟩
      simp only [FormatRoute.formatPOST, Option.getD_some]
      rw [if_neg hctx, if_pos ht]
      rw [show (FormatRoute.allFormats p.context (p.requirements.getD [])
          (p.constraints.getD []) (p.outputFormat.getD "Clear response")
          (p.intent.getD "General")).find?
            (fun f => toLowerStr f.llmName == toLowerStr t) =
          some (FormatRoute.formatForGrok p.context (p.requirements.getD [])
            (p.constraints.getD []) (p.outputFormat.getD "Clear response")) from by
        simp only [FormatRoute.allFormats]
        rw [List.find?_cons_of_neg _ (by
          simp only [FormatRoute.llmName_claude, htlow]; decide)]
        rw [List.find?_cons_of_neg _ (by
          simp only [FormatRoute.llmName_gemini, htlow]; decide)]
        rw [List.find?_cons_of_neg _ (by
          simp only [FormatRoute.llmName_chatgpt, htlow]; decide)]
        rw [List.find?_cons_of_neg _ (by
          simp only [FormatRoute.llmName_deepseek, htlow]; decide)]
        exact List.find?_cons_of_pos _ (by
          simp only [FormatRoute.llmName_grok, htlow]; decide)]

theorem spec_c9_witness :
    FormatRoute.formatPOST (some c9Prompt) (some "Mistral") =
      FormatRoute.RouteResponse.err ("Unknown LLM: Mistral") 400 ∧
    ∃ f, FormatRoute.formatPOST (some c9Prompt) (some "claude") =
        FormatRoute.RouteResponse.ok [f] ∧ f.llmName = "Claude" :=
  ⟨(spec_c9 c9Prompt "Mistral" (by decide) (by decide)).1 (by decide),
   (spec_c9 c9Prompt "claude" (by decide) (by decide)).2 "Claude" (by decide)
     (by decide)⟩
